import Mathlib

/-!
Verification development for the auto-build session orchestration and
recovery subsystem (auto-build/agent.py, auto-build/progress.py).

The Python code is shallowly embedded: file reads become an explicit
FileRead value, JSON content becomes the Jsonv inductive, Python dynamic
type errors (TypeError, AttributeError raised on untyped data) become an
Except PyError result, and the git subprocess probe becomes an Except
argument describing whether the command exited non-zero.
-/

/-- A JSON value as produced by json.load. Numbers are modelled as
integers, which covers all values relevant to the orchestration files. -/
inductive Jsonv where
  | null
  | bool (b : Bool)
  | num (n : Int)
  | str (s : String)
  | arr (l : List Jsonv)
  | obj (m : List (String × Jsonv))

/-- Python dynamic errors that untyped JSON data can raise. -/
inductive PyError where
  | typeError
  | attributeError
deriving DecidableEq

/-- Outcome of trying to read and JSON-parse one on-disk file:
the file is missing, open or read raised IOError, the bytes are not
valid JSON, or parsing produced a JSON value. -/
inductive FileRead where
  | missing
  | ioError
  | badJson
  | parsed (j : Jsonv)

/-- Python truthiness of a JSON value. -/
def truthy : Jsonv → Bool
  | .null => false
  | .bool b => b
  | .num n => n != 0
  | .str s => s != ""
  | .arr l => !l.isEmpty
  | .obj m => !m.isEmpty

/-- dict.get k default on a JSON object (last binding wins, as json.load
builds a dict). -/
def dictGet (m : List (String × Jsonv)) (k : String) (dflt : Jsonv) : Jsonv :=
  match m.reverse.find? (fun p => p.1 == k) with
  | some p => p.2
  | none => dflt

/-- len on a JSON value: defined for str, arr and obj, a TypeError
otherwise, exactly as in Python. -/
def pyLen : Jsonv → Except PyError Nat
  | .str s => .ok s.length
  | .arr l => .ok l.length
  | .obj m => .ok m.length
  | _ => .error .typeError

/-- The elements Python iteration yields on an iterable JSON value
(an object yields its keys, a string yields one-character strings).
Only consulted after pyLen succeeded, so the default branch is unreached. -/
def pyElems : Jsonv → List Jsonv
  | .arr l => l
  | .obj m => m.map (fun p => .str p.1)
  | .str s => s.toList.map (fun c => .str (String.mk [c]))
  | _ => []

/-- The generator sum(1 for test in tests if test.get("passes", False)):
each yielded element must be a dict for the .get attribute to exist;
a non-dict element raises AttributeError. -/
def sumPasses : List Jsonv → Except PyError Nat
  | [] => .ok 0
  | .obj m :: rest =>
    match sumPasses rest with
    | .error e => .error e
    | .ok n => .ok ((if truthy (dictGet m "passes" (.bool false)) then 1 else 0) + n)
  | _ :: _ => .error .attributeError

/-- progress.count_passing_tests: (0, 0) when the file is missing or the
read raises JSONDecodeError or IOError; otherwise len first, then the
truthy-passes count over the parsed value. -/
def count_passing_tests (file : FileRead) : Except PyError (Nat × Nat) :=
  match file with
  | .missing => .ok (0, 0)
  | .ioError => .ok (0, 0)
  | .badJson => .ok (0, 0)
  | .parsed j =>
    match pyLen j with
    | .error e => .error e
    | .ok total =>
      match sumPasses (pyElems j) with
      | .error e => .error e
      | .ok passing => .ok (passing, total)

/-- progress.is_build_complete: total > 0 and passing == total. -/
def is_build_complete (file : FileRead) : Except PyError Bool :=
  match count_passing_tests file with
  | .error e => .error e
  | .ok (passing, total) => .ok (decide (0 < total) && decide (passing = total))

/-- agent.load_implementation_plan: None when the plan file is missing or
the read raises JSONDecodeError or IOError, otherwise the parsed value. -/
def load_implementation_plan (file : FileRead) : Option Jsonv :=
  match file with
  | .missing => none
  | .ioError => none
  | .badJson => none
  | .parsed j => some j

/-- Whitespace stripped from both ends of a character list, as by the
Python str.strip method. -/
def stripWs (l : List Char) : List Char :=
  ((l.dropWhile Char.isWhitespace).reverse.dropWhile Char.isWhitespace).reverse

/-- The Python str.strip method. -/
def pyStrip (s : String) : String :=
  String.mk (stripWs s.data)

/-- Accumulator loop for decimal digit parsing. -/
def natOfDigitsGo : List Char → Nat → Option Nat
  | [], acc => some acc
  | c :: rest, acc =>
    if 48 ≤ c.toNat && c.toNat ≤ 57 then natOfDigitsGo rest (acc * 10 + (c.toNat - 48))
    else none

/-- A nonempty all-digit character list parsed as a natural number. -/
def natOfDigits (l : List Char) : Option Nat :=
  if l.isEmpty then none else natOfDigitsGo l 0

/-- The Python int constructor on a stripped string: optional sign then
decimal digits; anything else raises ValueError, modelled as none. -/
def pyParseInt (s : String) : Option Int :=
  match s.data with
  | '+' :: rest => (natOfDigits rest).map Int.ofNat
  | '-' :: rest => (natOfDigits rest).map (fun n => -(n : Int))
  | l => (natOfDigits l).map Int.ofNat

/-- agent.get_latest_commit: the stripped stdout of git rev-parse HEAD,
or None when the command exits non-zero (CalledProcessError). -/
def get_latest_commit (git : Except Unit String) : Option String :=
  match git with
  | .error _ => none
  | .ok out => some (pyStrip out)

/-- agent.get_commit_count: int of the stripped stdout of
git rev-list count HEAD, or 0 when the command exits non-zero
(CalledProcessError) or the output is not an integer (ValueError). -/
def get_commit_count (git : Except Unit String) : Int :=
  match git with
  | .error _ => 0
  | .ok out =>
    match pyParseInt (pyStrip out) with
    | none => 0
    | some n => n

/-- A feature entry counts as passing when it is a dict whose passes
field is truthy (absent defaults to False). -/
def entryPasses : Jsonv → Bool
  | .obj m => truthy (dictGet m "passes" (.bool false))
  | _ => false

/-- Recognises a JSON object (Python dict). -/
def isObj : Jsonv → Bool
  | .obj _ => true
  | _ => false


/-- A chunk entry of the implementation plan, with the fields the
orchestration core reads; each field mirrors a dict.get access, so a
field the JSON omits is none. -/
structure Chunk where
  id : Option String
  description : Option String
  status : Option String
deriving DecidableEq

/-- A phase entry of the implementation plan. -/
structure Phase where
  name : Option String
  chunks : List Chunk
deriving DecidableEq

/-- The implementation plan: an ordered list of phases of chunks. -/
structure Plan where
  phases : List Phase
deriving DecidableEq

/-- agent.find_chunk_in_plan: first chunk over phases in order whose id
field equals chunk_id (a missing id compares unequal to any string). -/
def find_chunk_in_plan (plan : Plan) (chunk_id : String) : Option Chunk :=
  plan.phases.findSome? fun phase =>
    phase.chunks.find? fun c => c.id == some chunk_id

/-- One Attempt record of the recovery ledger. -/
structure AttemptRec where
  chunk_id : String
  session : Nat
  success : Bool
  approach : String
  errorText : Option String
deriving DecidableEq

/-- Modelled from the spec: the RecoveryLedger state kept by
RecoveryManager (recovery.py is not part of the sources here): an
append-style list of Attempts, of GoodCommits (commit id, chunk id) and
of StuckMarkers (chunk id, reason). -/
structure Ledger where
  attempts : List AttemptRec
  good_commits : List (String × String)
  stuck : List (String × String)
deriving DecidableEq

/-- The empty ledger. -/
def Ledger.empty : Ledger := ⟨[], [], []⟩

/-- Modelled from the spec: RecoveryManager.record_attempt appends an
Attempt, ignoring a replay of an already recorded
(chunk_id, session_number) key. -/
def record_attempt (l : Ledger) (cid : String) (session : Nat)
    (success : Bool) (approach : String) (errorText : Option String) : Ledger :=
  if l.attempts.any (fun a => a.chunk_id == cid && a.session == session) then l
  else { l with attempts := l.attempts ++ [⟨cid, session, success, approach, errorText⟩] }

/-- Modelled from the spec: RecoveryManager.get_attempt_count is the
number of Attempts recorded for the chunk. -/
def get_attempt_count (l : Ledger) (cid : String) : Nat :=
  (l.attempts.filter (fun a => a.chunk_id == cid)).length

/-- Modelled from the spec: RecoveryManager.record_good_commit appends a
GoodCommit, ignoring a replay of an already recorded pair. -/
def record_good_commit (l : Ledger) (commit : String) (cid : String) : Ledger :=
  if l.good_commits.any (fun g => g.1 == commit && g.2 == cid) then l
  else { l with good_commits := l.good_commits ++ [(commit, cid)] }

/-- Modelled from the spec: RecoveryManager.mark_chunk_stuck creates a
StuckMarker unless one already exists for the chunk (idempotent). -/
def mark_chunk_stuck (l : Ledger) (cid : String) (reason : String) : Ledger :=
  if l.stuck.any (fun s => s.1 == cid) then l
  else { l with stuck := l.stuck ++ [(cid, reason)] }

/-- Whether a StuckMarker exists for the chunk. -/
def is_stuck (l : Ledger) (cid : String) : Bool :=
  l.stuck.any (fun s => s.1 == cid)

/-- Whether a successful (completed) Attempt exists for the chunk. -/
def has_successful_attempt (l : Ledger) (cid : String) : Bool :=
  l.attempts.any (fun a => a.chunk_id == cid && a.success)

/-- Whether a GoodCommit ties the commit to the chunk. -/
def has_good_commit (l : Ledger) (commit : String) (cid : String) : Bool :=
  l.good_commits.any (fun g => g.1 == commit && g.2 == cid)

/-- Whether an Attempt with this (chunk_id, session_number) key exists. -/
def has_attempt_key (l : Ledger) (cid : String) (session : Nat) : Bool :=
  l.attempts.any (fun a => a.chunk_id == cid && a.session == session)

/-- The Python condition commit_after and commit_after != commit_before:
the truthiness test fails on None and on the empty string, then the
inequality compares a string against an optional string. -/
def newCommitMade (commit_after commit_before : Option String) : Bool :=
  match commit_after with
  | none => false
  | some s => s != "" && commit_before != some s

/-- agent.post_session_processing, lines 131-277: reconcile the re-read
plan and the commit probe after one session and update the ledger.
Returns the success flag together with the updated ledger. The commit
count delta is only printed by the source, so it is not a parameter. -/
def post_session_processing (plan : Option Plan) (chunk_id : String)
    (session_num : Nat) (commit_before commit_after : Option String)
    (ledger : Ledger) : Bool × Ledger :=
  match plan with
  | none => (false, ledger)
  | some p =>
    match find_chunk_in_plan p chunk_id with
    | none => (false, ledger)
    | some chunk =>
      let chunk_status := chunk.status.getD "pending"
      if chunk_status == "completed" then
        let l1 := record_attempt ledger chunk_id session_num true
          ("Implemented: " ++ (chunk.description.getD "chunk").take 100) none
        let l2 := if newCommitMade commit_after commit_before then
            record_good_commit l1 (commit_after.getD "") chunk_id
          else l1
        (true, l2)
      else if chunk_status == "in_progress" then
        let l1 := record_attempt ledger chunk_id session_num false
          "Session ended with chunk in_progress" (some "Chunk not marked as completed")
        let l2 := if newCommitMade commit_after commit_before then
            record_good_commit l1 (commit_after.getD "") chunk_id
          else l1
        (false, l2)
      else
        let l1 := record_attempt ledger chunk_id session_num false
          "Session ended without progress" (some ("Chunk status is " ++ chunk_status))
        (false, l1)

/-- agent.run_autonomous_agent, lines 556-590: one reconciliation step of
the main loop: post-session processing, then the stuck check that marks
the chunk stuck when the step did not succeed and the updated attempt
count has reached 3. -/
def sessionStep (plan : Option Plan) (chunk_id : String) (session_num : Nat)
    (commit_before commit_after : Option String) (ledger : Ledger) : Bool × Ledger :=
  let r := post_session_processing plan chunk_id session_num commit_before commit_after ledger
  let attempt_count := get_attempt_count r.2 chunk_id
  if !r.1 && decide (3 ≤ attempt_count) then
    (r.1, mark_chunk_stuck r.2 chunk_id
      ("Failed after " ++ toString attempt_count ++ " attempts"))
  else r

/-- Modelled from the spec: progress.get_next_chunk (the ChunkSelector;
the chunk-based progress helpers imported by agent.py are not part of
the sources here): the first chunk, in phase order then chunk order,
whose status is pending or in_progress; none when no such chunk exists. -/
def get_next_chunk (plan : Option Plan) : Option Chunk :=
  match plan with
  | none => none
  | some p =>
    p.phases.findSome? fun phase =>
      phase.chunks.find? fun c =>
        c.status.getD "pending" == "pending" || c.status.getD "pending" == "in_progress"

/-- The str form of a Python dynamic error, used as the error detail. -/
def errText : PyError → String
  | .typeError => "TypeError"
  | .attributeError => "AttributeError"

/-- agent.run_agent_session, lines 279-362: the streamed interaction is
an Except value (an exception with its message, or the collected
response text); any exception inside the try block, including one raised
by the delegated completion check, yields the error outcome. On a clean
run the outcome is complete or continue according to is_build_complete
re-read from disk, never according to the response text. -/
def run_agent_session (stream : Except String String) (featureFile : FileRead) :
    String × String :=
  match stream with
  | .error e => ("error", e)
  | .ok text =>
    match is_build_complete featureFile with
    | .error e => ("error", errText e)
    | .ok true => ("complete", text)
    | .ok false => ("continue", text)

/-- agent.run_autonomous_agent, lines 471-475: the iteration cap test
if max_iterations and iteration > max_iterations, with Python falsiness
of None and 0. -/
def capExceeded (maxIter : Option Int) (iteration : Int) : Bool :=
  match maxIter with
  | none => false
  | some m => m != 0 && iteration > m

/-- How one main-loop iteration of run_autonomous_agent ends. -/
inductive IterOutcome where
  | paused
  | capReached
  | noChunk
  | ranSession (reconciled : Option Bool)
deriving DecidableEq

/-- agent.run_autonomous_agent, lines 451-590, one iteration of the main
loop on its durable state, for a continuing (non-planner) run. The
effects of the agent session are oracle inputs: planAtSelect is the plan
read when selecting the chunk, planAfter the plan re-read afterwards,
and the commit probe values surround the session. Order mirrors the
source: the pause sentinel first, then the iteration cap, then chunk
selection, then the session followed by reconciliation (skipped when the
selected chunk has no id field, as the source tests chunk_id for truth). -/
def loopIteration (pause : Bool) (maxIter : Option Int) (iteration : Int)
    (planAtSelect planAfter : Option Plan) (commit_before commit_after : Option String)
    (ledger : Ledger) : IterOutcome × Ledger :=
  if pause then (.paused, ledger)
  else if capExceeded maxIter iteration then (.capReached, ledger)
  else
    match get_next_chunk planAtSelect with
    | none => (.noChunk, ledger)
    | some c =>
      match c.id with
      | none => (.ranSession none, ledger)
      | some cid =>
        let r := sessionStep planAfter cid iteration.toNat commit_before commit_after ledger
        (.ranSession (some r.1), r.2)

/-- The number of agent sessions the main loop runs, keeping only the
skeleton that decides the count for claim C10: the pause sentinel stays
absent, a pending chunk is always available and every session ends with
the continue outcome, so only the iteration cap can stop the loop; fuel
bounds the recursion. Mirrors the increment-then-test order of
run_autonomous_agent lines 451-475. -/
def sessionsRun : Nat → Int → Option Int → Nat
  | 0, _, _ => 0
  | Nat.succ fuel, iteration, maxIter =>
    let iter := iteration + 1
    if capExceeded maxIter iter then 0
    else 1 + sessionsRun fuel iter maxIter


/-- Whether the loaded plan contains the chunk. -/
def planHasChunk (plan : Option Plan) (cid : String) : Bool :=
  match plan with
  | none => false
  | some p => (find_chunk_in_plan p cid).isSome

theorem record_attempt_attempts (l : Ledger) (cid : String) (sess : Nat)
    (b : Bool) (ap : String) (et : Option String) :
    (record_attempt l cid sess b ap et).attempts =
      if has_attempt_key l cid sess then l.attempts
      else l.attempts ++ [⟨cid, sess, b, ap, et⟩] := by
  simp only [record_attempt, has_attempt_key]
  split <;> simp [*]

theorem record_attempt_stuck (l : Ledger) (cid : String) (sess : Nat)
    (b : Bool) (ap : String) (et : Option String) :
    (record_attempt l cid sess b ap et).stuck = l.stuck := by
  simp only [record_attempt]
  split <;> rfl

theorem record_attempt_good_commits (l : Ledger) (cid : String) (sess : Nat)
    (b : Bool) (ap : String) (et : Option String) :
    (record_attempt l cid sess b ap et).good_commits = l.good_commits := by
  simp only [record_attempt]
  split <;> rfl

theorem record_good_commit_attempts (l : Ledger) (c cid : String) :
    (record_good_commit l c cid).attempts = l.attempts := by
  simp only [record_good_commit]
  split <;> rfl

theorem record_good_commit_stuck (l : Ledger) (c cid : String) :
    (record_good_commit l c cid).stuck = l.stuck := by
  simp only [record_good_commit]
  split <;> rfl

theorem mark_chunk_stuck_attempts (l : Ledger) (cid reason : String) :
    (mark_chunk_stuck l cid reason).attempts = l.attempts := by
  simp only [mark_chunk_stuck]
  split <;> rfl

theorem has_good_commit_record (l : Ledger) (c cid : String) :
    has_good_commit (record_good_commit l c cid) c cid = true := by
  simp only [has_good_commit, record_good_commit]
  split
  · assumption
  · simp [List.any_append]

theorem get_attempt_count_append (l : Ledger) (a : AttemptRec) (cid : String) :
    get_attempt_count { l with attempts := l.attempts ++ [a] } cid =
      get_attempt_count l cid + (if a.chunk_id == cid then 1 else 0) := by
  by_cases h : a.chunk_id == cid <;>
    simp [get_attempt_count, List.filter_append, List.filter, h]

theorem get_attempt_count_record_good_commit (l : Ledger) (c cid cid2 : String) :
    get_attempt_count (record_good_commit l c cid) cid2 = get_attempt_count l cid2 := by
  simp [get_attempt_count, record_good_commit_attempts]

theorem post_session_processing_stuck (plan : Option Plan) (cid : String)
    (sess : Nat) (cb ca : Option String) (ledger : Ledger) :
    (post_session_processing plan cid sess cb ca ledger).2.stuck = ledger.stuck := by
  unfold post_session_processing
  cases plan with
  | none => rfl
  | some p =>
    cases h : find_chunk_in_plan p cid with
    | none => simp only [h]
    | some chunk =>
      simp only [h]
      split
      · split <;> simp [record_attempt_stuck, record_good_commit_stuck]
      · split
        · split <;> simp [record_attempt_stuck, record_good_commit_stuck]
        · simp [record_attempt_stuck]

theorem post_session_processing_count (plan : Option Plan) (cid : String)
    (sess : Nat) (cb ca : Option String) (ledger : Ledger) :
    get_attempt_count (post_session_processing plan cid sess cb ca ledger).2 cid =
      get_attempt_count ledger cid +
        (if planHasChunk plan cid && !has_attempt_key ledger cid sess then 1 else 0) := by
  unfold post_session_processing
  cases plan with
  | none => simp [planHasChunk]
  | some p =>
    cases h : find_chunk_in_plan p cid with
    | none => simp [planHasChunk, h]
    | some chunk =>
      have hplan : planHasChunk (some p) cid = true := by simp [planHasChunk, h]
      simp only [h]
      by_cases hkey : has_attempt_key ledger cid sess
      · simp only [hplan, hkey, Bool.not_true, Bool.and_false, if_false]
        have hrec : ∀ b ap et, (record_attempt ledger cid sess b ap et).attempts = ledger.attempts := by
          intro b ap et
          rw [record_attempt_attempts]
          simp [hkey]
        split
        · split <;>
            simp [get_attempt_count, record_good_commit_attempts, hrec]
        · split
          · split <;>
              simp [get_attempt_count, record_good_commit_attempts, hrec]
          · simp [get_attempt_count, hrec]
      · simp only [hplan, hkey, Bool.not_false, Bool.and_true, if_true]
        have hrec : ∀ b ap et, (record_attempt ledger cid sess b ap et).attempts =
            ledger.attempts ++ [⟨cid, sess, b, ap, et⟩] := by
          intro b ap et
          rw [record_attempt_attempts]
          simp [hkey]
        split
        · split <;>
            · rw [show ∀ l : Ledger, get_attempt_count l cid =
                  (l.attempts.filter (fun a => a.chunk_id == cid)).length from fun _ => rfl]
              simp [record_good_commit_attempts, hrec, List.filter_append, List.filter,
                get_attempt_count]
        · split
          · split <;>
              simp [record_good_commit_attempts, hrec, List.filter_append, List.filter,
                get_attempt_count]
          · simp [hrec, List.filter_append, List.filter, get_attempt_count]

theorem is_stuck_mark_self (l : Ledger) (cid reason : String) :
    is_stuck (mark_chunk_stuck l cid reason) cid = true := by
  simp only [is_stuck, mark_chunk_stuck]
  split
  · assumption
  · simp [List.any_append]

theorem filter_nil_of_not_any {α : Type} (l : List α) (p : α → Bool)
    (h : ¬ l.any p = true) : l.filter p = [] := by
  rw [Bool.not_eq_true] at h
  simp only [List.any_eq_false] at h
  exact List.filter_eq_nil_iff.mpr h

/-- Claim C2, amended: over one reconciliation call the attempt count of
the chunk never decreases, and it increases by exactly 1 precisely when
the re-read plan loads, the chunk is found in it and the
(chunk id, session number) key is not an already recorded replay; when
the plan cannot be loaded or the chunk id is absent the call leaves the
ledger untouched, so the count increases by 0 there, not by 1. -/
theorem c2_attempt_count_per_reconciliation (plan : Option Plan) (cid : String)
    (sess : Nat) (cb ca : Option String) (ledger : Ledger) :
    get_attempt_count (post_session_processing plan cid sess cb ca ledger).2 cid =
      get_attempt_count ledger cid +
        (if planHasChunk plan cid && !has_attempt_key ledger cid sess then 1 else 0)
    ∧ get_attempt_count ledger cid ≤
        get_attempt_count (post_session_processing plan cid sess cb ca ledger).2 cid := by
  refine ⟨post_session_processing_count plan cid sess cb ca ledger, ?_⟩
  rw [post_session_processing_count]
  exact Nat.le_add_right _ _

/-- Claim C2, counterexample: when the plan file cannot be loaded the
reconciler returns early and records nothing, so the attempt count stays
0 instead of increasing by exactly 1 as the claim states. -/
theorem c2_counterexample :
    ¬ (get_attempt_count (post_session_processing none "c1" 1 none none Ledger.empty).2 "c1"
        = get_attempt_count Ledger.empty "c1" + 1) := by decide

/-- Claim C3, amended: after one session step a StuckMarker for the
chunk exists exactly when it already existed or the reconciliation just
performed was not successful while the updated attempt count has reached
3 - regardless of whether some earlier completed Attempt exists for the
chunk; and marking never duplicates the record: the chunk has at most
one StuckMarker afterwards whenever it had at most one before, which the
max bound expresses without a hypothesis. -/
theorem c3_stuck_marking (plan : Option Plan) (cid : String) (sess : Nat)
    (cb ca : Option String) (ledger : Ledger) :
    is_stuck (sessionStep plan cid sess cb ca ledger).2 cid =
      (is_stuck ledger cid ||
        (!(sessionStep plan cid sess cb ca ledger).1 &&
          decide (3 ≤ get_attempt_count (sessionStep plan cid sess cb ca ledger).2 cid)))
    ∧ (((sessionStep plan cid sess cb ca ledger).2.stuck.filter (fun s => s.1 == cid)).length ≤
        max 1 ((ledger.stuck.filter (fun s => s.1 == cid)).length)) := by
  have hstuck := post_session_processing_stuck plan cid sess cb ca ledger
  unfold sessionStep
  set r := post_session_processing plan cid sess cb ca ledger with hr
  by_cases hc : (!r.1 && decide (3 ≤ get_attempt_count r.2 cid)) = true
  · rw [if_pos hc]
    constructor
    · rw [is_stuck_mark_self]
      have hcount : get_attempt_count
          (mark_chunk_stuck r.2 cid
            ("Failed after " ++ toString (get_attempt_count r.2 cid) ++ " attempts")) cid
          = get_attempt_count r.2 cid := by
        simp [get_attempt_count, mark_chunk_stuck_attempts]
      rw [hcount, hc]
      simp
    · simp only [mark_chunk_stuck]
      split
      · rw [hstuck]
        exact le_max_right _ _
      · rename_i hany
        rw [hstuck] at hany ⊢
        rw [List.filter_append, filter_nil_of_not_any _ _ hany]
        simp
  · rw [if_neg hc]
    rw [Bool.not_eq_true] at hc
    constructor
    · have hl : is_stuck r.2 cid = is_stuck ledger cid := by
        simp [is_stuck, hstuck]
      rw [hl, hc]
      simp
    · rw [hstuck]
      exact le_max_right _ _

/-- A three-phase-free concrete plan whose single chunk is still pending
after the session, used to exercise the stuck check. -/
def planPending : Plan :=
  ⟨[⟨some "phase1", [⟨some "c1", some "demo chunk", some "pending"⟩]⟩]⟩

/-- A ledger holding three prior attempts for the chunk, one of them
successful. -/
def ledgerWithSuccess : Ledger :=
  ⟨[⟨"c1", 1, false, "try", none⟩, ⟨"c1", 2, true, "done", none⟩,
    ⟨"c1", 3, false, "retry", none⟩], [], []⟩

/-- Claim C3, counterexample: the source marks the chunk stuck whenever
the latest reconciliation was unsuccessful and the attempt count is at
least 3, even though a completed (successful) Attempt exists for the
chunk, contradicting the claimed equivalence with no completed Attempt
existing. -/
theorem c3_counterexample :
    is_stuck (sessionStep (some planPending) "c1" 4 none none ledgerWithSuccess).2 "c1" = true
    ∧ has_successful_attempt
        (sessionStep (some planPending) "c1" 4 none none ledgerWithSuccess).2 "c1" = true := by
  exact ⟨by decide, by decide⟩

/-- Claim C1: when the re-read plan loads and shows the chunk with
status completed, the reconciler returns true, appends one successful
Attempt for the chunk (the session key being fresh), and a GoodCommit
tying the head commit to the chunk is recorded exactly when the head
commit after the session exists (a git hash, hence nonempty) and differs
from the commit before; with no new commit the good-commit ledger is
untouched while the chunk is still accepted as completed. -/
theorem c1_completed_reconciliation (p : Plan) (cid : String) (sess : Nat)
    (cb ca : Option String) (ledger : Ledger) (chunk : Chunk)
    (hfind : find_chunk_in_plan p cid = some chunk)
    (hstatus : chunk.status.getD "pending" = "completed")
    (hfresh : has_attempt_key ledger cid sess = false) :
    (post_session_processing (some p) cid sess cb ca ledger).1 = true
    ∧ (post_session_processing (some p) cid sess cb ca ledger).2.attempts =
        ledger.attempts ++
          [⟨cid, sess, true, "Implemented: " ++ (chunk.description.getD "chunk").take 100, none⟩]
    ∧ (∀ s, ca = some s → s ≠ "" → cb ≠ some s →
        has_good_commit (post_session_processing (some p) cid sess cb ca ledger).2 s cid = true)
    ∧ (ca = none ∨ ca = cb →
        (post_session_processing (some p) cid sess cb ca ledger).2.good_commits =
          ledger.good_commits) := by
  have hfr : ¬ has_attempt_key ledger cid sess = true := by simp [hfresh]
  unfold post_session_processing
  simp only [hfind, hstatus]
  rw [if_pos (by decide)]
  refine ⟨rfl, ?_, ?_, ?_⟩
  · by_cases hnc : newCommitMade ca cb = true
    · rw [if_pos hnc, record_good_commit_attempts, record_attempt_attempts, if_neg hfr]
    · rw [if_neg hnc, record_attempt_attempts, if_neg hfr]
  · intro s hca hs hne
    subst hca
    have hnc : newCommitMade (some s) cb = true := by
      simp only [newCommitMade, Bool.and_eq_true, bne_iff_ne]
      exact ⟨hs, hne⟩
    rw [if_pos hnc]
    exact has_good_commit_record _ s cid
  · intro h
    have hnc : newCommitMade ca cb = false := by
      rcases h with h | h
      · subst h; rfl
      · subst h
        cases ca with
        | none => rfl
        | some s => simp [newCommitMade]
    rw [if_neg (by simp [hnc]), record_attempt_good_commits]

/-- A concrete one-chunk plan with the chunk marked completed. -/
def planCompleted : Plan :=
  ⟨[⟨some "phase1", [⟨some "c1", some "demo chunk", some "completed"⟩]⟩]⟩

/-- Claim C1 witness at a concrete completed chunk with a fresh commit. -/
theorem c1_witness :
    (post_session_processing (some planCompleted) "c1" 1 none (some "abc1234") Ledger.empty).1 = true
    ∧ has_good_commit
        (post_session_processing (some planCompleted) "c1" 1 none (some "abc1234") Ledger.empty).2
        "abc1234" "c1" = true := by
  have h := c1_completed_reconciliation planCompleted "c1" 1 none (some "abc1234") Ledger.empty
    ⟨some "c1", some "demo chunk", some "completed"⟩ rfl rfl rfl
  exact ⟨h.1, h.2.2.1 "abc1234" rfl (by decide) (by decide)⟩

/-- Claim C4: when the re-read plan loads and shows the chunk with
status in_progress, the reconciler returns false and appends one failed
Attempt carrying the fixed diagnostic message (the session key being
fresh), and yet a GoodCommit tying the head commit to the chunk is still
recorded when the head commit after the session exists (nonempty) and
differs from the commit before; without a new commit the good-commit
ledger is untouched. -/
theorem c4_in_progress_reconciliation (p : Plan) (cid : String) (sess : Nat)
    (cb ca : Option String) (ledger : Ledger) (chunk : Chunk)
    (hfind : find_chunk_in_plan p cid = some chunk)
    (hstatus : chunk.status.getD "pending" = "in_progress")
    (hfresh : has_attempt_key ledger cid sess = false) :
    (post_session_processing (some p) cid sess cb ca ledger).1 = false
    ∧ (post_session_processing (some p) cid sess cb ca ledger).2.attempts =
        ledger.attempts ++
          [⟨cid, sess, false, "Session ended with chunk in_progress",
            some "Chunk not marked as completed"⟩]
    ∧ (∀ s, ca = some s → s ≠ "" → cb ≠ some s →
        has_good_commit (post_session_processing (some p) cid sess cb ca ledger).2 s cid = true)
    ∧ (ca = none ∨ ca = cb →
        (post_session_processing (some p) cid sess cb ca ledger).2.good_commits =
          ledger.good_commits) := by
  have hfr : ¬ has_attempt_key ledger cid sess = true := by simp [hfresh]
  unfold post_session_processing
  simp only [hfind, hstatus]
  rw [if_neg (by decide), if_pos (by decide)]
  refine ⟨rfl, ?_, ?_, ?_⟩
  · by_cases hnc : newCommitMade ca cb = true
    · rw [if_pos hnc, record_good_commit_attempts, record_attempt_attempts, if_neg hfr]
    · rw [if_neg hnc, record_attempt_attempts, if_neg hfr]
  · intro s hca hs hne
    subst hca
    have hnc : newCommitMade (some s) cb = true := by
      simp only [newCommitMade, Bool.and_eq_true, bne_iff_ne]
      exact ⟨hs, hne⟩
    rw [if_pos hnc]
    exact has_good_commit_record _ s cid
  · intro h
    have hnc : newCommitMade ca cb = false := by
      rcases h with h | h
      · subst h; rfl
      · subst h
        cases ca with
        | none => rfl
        | some s => simp [newCommitMade]
    rw [if_neg (by simp [hnc]), record_attempt_good_commits]

/-- A concrete one-chunk plan with the chunk left in_progress. -/
def planInProgress : Plan :=
  ⟨[⟨some "phase1", [⟨some "c1", some "demo chunk", some "in_progress"⟩]⟩]⟩

/-- Claim C4 witness at a concrete in_progress chunk with a fresh commit. -/
theorem c4_witness :
    (post_session_processing (some planInProgress) "c1" 2 (some "abc") (some "def") Ledger.empty).1
        = false
    ∧ has_good_commit
        (post_session_processing (some planInProgress) "c1" 2 (some "abc") (some "def")
          Ledger.empty).2 "def" "c1" = true := by
  have h := c4_in_progress_reconciliation planInProgress "c1" 2 (some "abc") (some "def")
    Ledger.empty ⟨some "c1", some "demo chunk", some "in_progress"⟩ rfl rfl rfl
  exact ⟨h.1, h.2.2.1 "def" rfl (by decide) (by decide)⟩

theorem sumPasses_all_obj (l : List Jsonv) (h : ∀ j ∈ l, isObj j = true) :
    sumPasses l = .ok (l.countP entryPasses) := by
  induction l with
  | nil => rfl
  | cons j rest ih =>
    have hj := h j (by simp)
    have hrest : ∀ x ∈ rest, isObj x = true := fun x hx => h x (by simp [hx])
    cases j with
    | obj m =>
      simp only [sumPasses, ih hrest, List.countP_cons, entryPasses]
      simp [Nat.add_comm]
    | null => simp [isObj] at hj
    | bool b => simp [isObj] at hj
    | num n => simp [isObj] at hj
    | str s => simp [isObj] at hj
    | arr a => simp [isObj] at hj

/-- Claim C5: is_build_complete is true exactly when the registry file
parses to a nonempty list whose every entry passes (the completed status
of a chunk in the on-disk registry); it is false for an empty list, for
a missing file and for an unreadable or unparseable one. -/
theorem c5_build_complete_iff :
    is_build_complete .missing = .ok false
    ∧ is_build_complete .ioError = .ok false
    ∧ is_build_complete .badJson = .ok false
    ∧ is_build_complete (.parsed (.arr [])) = .ok false
    ∧ ∀ l : List Jsonv, (∀ j ∈ l, isObj j = true) →
        (is_build_complete (.parsed (.arr l)) = .ok true ↔
          l ≠ [] ∧ ∀ j ∈ l, entryPasses j = true) := by
  refine ⟨rfl, rfl, rfl, rfl, ?_⟩
  intro l h
  have hsum := sumPasses_all_obj l h
  simp only [is_build_complete, count_passing_tests, pyLen, pyElems, hsum]
  simp [Bool.and_eq_true, decide_eq_true_eq, List.length_pos, List.countP_eq_length]

/-- Claim C5 witness: a one-entry registry with a truthy passes field is
complete. -/
theorem c5_witness :
    is_build_complete (.parsed (.arr [.obj [("passes", .bool true)]])) = .ok true := by
  exact (c5_build_complete_iff.2.2.2.2 [.obj [("passes", .bool true)]] (by decide)).mpr
    ⟨List.cons_ne_nil _ _, by decide⟩

/-- Claim C6: the session runner returns the error outcome with the
exception detail whenever the streamed interaction raises; on a clean
stream the outcome is complete or continue exactly as the delegated
is_build_complete check decides from the on-disk state, the outcome
never depends on the response text, and every run lands in one of the
three outcomes, so nothing escapes. -/
theorem c6_session_outcomes :
    (∀ e file, run_agent_session (.error e) file = ("error", e))
    ∧ (∀ text file b, is_build_complete file = .ok b →
        run_agent_session (.ok text) file = ((if b then "complete" else "continue"), text))
    ∧ (∀ t1 t2 file,
        (run_agent_session (.ok t1) file).1 = (run_agent_session (.ok t2) file).1)
    ∧ (∀ stream file, (run_agent_session stream file).1 = "error"
        ∨ (run_agent_session stream file).1 = "complete"
        ∨ (run_agent_session stream file).1 = "continue") := by
  refine ⟨fun e file => rfl, ?_, ?_, ?_⟩
  · intro text file b hb
    simp only [run_agent_session, hb]
    cases b <;> rfl
  · intro t1 t2 file
    simp only [run_agent_session]
    cases h : is_build_complete file with
    | error e => rfl
    | ok b => cases b <;> rfl
  · intro stream file
    cases stream with
    | error e => exact Or.inl rfl
    | ok t =>
      simp only [run_agent_session]
      cases h : is_build_complete file with
      | error e => exact Or.inl rfl
      | ok b =>
        cases b
        · exact Or.inr (Or.inr rfl)
        · exact Or.inr (Or.inl rfl)

/-- Claim C6 witness: with an incomplete registry the clean session
returns continue carrying the response text. -/
theorem c6_witness :
    run_agent_session (.ok "done") .missing = ("continue", "done") := by
  have h := c6_session_outcomes.2.1 "done" .missing false rfl
  simpa using h

/-- Claim C7: with the pause sentinel present the loop iteration returns
the paused outcome with the ledger untouched, for every iteration cap
value, iteration number and plan state, so the sentinel is honoured
before the cap check, before chunk selection and before any session or
ledger write. -/
theorem c7_pause_checked_first (maxIter : Option Int) (iteration : Int)
    (planAtSelect planAfter : Option Plan) (cb ca : Option String) (ledger : Ledger) :
    loopIteration true maxIter iteration planAtSelect planAfter cb ca ledger =
      (.paused, ledger) := rfl

/-- Claim C8: the commit probe degrades to neutral values: a failing git
query yields None for the head commit and 0 for the commit count, and a
count query whose output does not parse as an integer also yields 0. -/
theorem c8_commit_probe_neutral :
    get_latest_commit (.error ()) = none
    ∧ get_commit_count (.error ()) = 0
    ∧ (∀ out, pyParseInt (pyStrip out) = none → get_commit_count (.ok out) = 0) := by
  refine ⟨rfl, rfl, ?_⟩
  intro out h
  simp [get_commit_count, h]

/-- Claim C8 witness: a non-numeric git output yields a count of 0. -/
theorem c8_witness :
    pyParseInt (pyStrip "abc") = none ∧ get_commit_count (.ok "abc") = 0 :=
  ⟨by decide, c8_commit_probe_neutral.2.2 "abc" (by decide)⟩

/-- Claim C9, amended: a missing, unreadable or JSON-invalid registry
file makes count_passing_tests return (0, 0), and the same file states
make load_implementation_plan return None, which also never raises for
any parsed content; count_passing_tests is additionally exception-free
on any list of dicts, but content that parses to JSON of another shape
can raise, so the claim holds for every file content only for the plan
loader, not for the test counter. -/
theorem c9_corrupt_state_neutral :
    count_passing_tests .missing = .ok (0, 0)
    ∧ count_passing_tests .ioError = .ok (0, 0)
    ∧ count_passing_tests .badJson = .ok (0, 0)
    ∧ load_implementation_plan .missing = none
    ∧ load_implementation_plan .ioError = none
    ∧ load_implementation_plan .badJson = none
    ∧ (∀ j, load_implementation_plan (.parsed j) = some j)
    ∧ (∀ l : List Jsonv, (∀ j ∈ l, isObj j = true) →
        count_passing_tests (.parsed (.arr l)) = .ok (l.countP entryPasses, l.length)) := by
  refine ⟨rfl, rfl, rfl, rfl, rfl, rfl, fun j => rfl, ?_⟩
  intro l h
  simp only [count_passing_tests, pyLen, pyElems, sumPasses_all_obj l h]

/-- Claim C9 witness: a registry holding one dict without a passes field
counts as (0, 1) without raising. -/
theorem c9_witness :
    count_passing_tests (.parsed (.arr [.obj []])) = .ok (0, 1) := by
  have h := c9_corrupt_state_neutral.2.2.2.2.2.2.2 [.obj []] (by decide)
  rw [h]
  rfl

/-- Claim C9 counterexample: a registry file whose content is the valid
JSON number 5 makes count_passing_tests raise a TypeError (len of an
int), escaping the except clause that only catches JSONDecodeError and
IOError, so an exception does escape for some file content. -/
theorem c9_counterexample :
    count_passing_tests (.parsed (.num 5)) = .error .typeError := rfl

theorem sessionsRun_none (fuel : Nat) : ∀ i, sessionsRun fuel i none = fuel := by
  induction fuel with
  | zero => intro i; rfl
  | succ f ih =>
    intro i
    simp only [sessionsRun, capExceeded]
    rw [if_neg (by simp)]
    rw [ih (i + 1)]
    omega

theorem sessionsRun_zero_cap (fuel : Nat) : ∀ i, sessionsRun fuel i (some 0) = sessionsRun fuel i none := by
  induction fuel with
  | zero => intro i; rfl
  | succ f ih =>
    intro i
    simp only [sessionsRun, capExceeded]
    rw [if_neg (by simp), if_neg (by simp)]
    rw [ih (i + 1)]

theorem sessionsRun_pos_cap (n : Int) (hn : 0 < n) :
    ∀ (fuel : Nat) (i : Int), sessionsRun fuel i (some n) = min fuel (n - i).toNat := by
  intro fuel
  induction fuel with
  | zero => intro i; simp [sessionsRun]
  | succ f ih =>
    intro i
    simp only [sessionsRun]
    by_cases hgt : i + 1 > n
    · have hcap : capExceeded (some n) (i + 1) = true := by
        simp [capExceeded, hgt, hn.ne']
      rw [if_pos hcap]
      have h0 : (n - i).toNat = 0 := by omega
      simp [h0]
    · have hcap : capExceeded (some n) (i + 1) = false := by
        simp [capExceeded, hgt]
      rw [if_neg (by simp [hcap])]
      rw [ih (i + 1)]
      have h1 : (n - i).toNat = (n - (i + 1)).toNat + 1 := by omega
      rw [h1, Nat.succ_min_succ]
      omega

/-- Claim C10: a cap of 0 makes the iteration-cap test behave exactly as
no cap at all (the loop is unlimited, here running once per unit of
fuel), while a positive cap N stops the loop before session N+1, so the
number of sessions run is the minimum of the available fuel and N. -/
theorem c10_iteration_cap :
    (∀ fuel i, sessionsRun fuel i (some 0) = sessionsRun fuel i none)
    ∧ (∀ fuel i, sessionsRun fuel i none = fuel)
    ∧ (∀ n : Int, 0 < n → ∀ fuel, sessionsRun fuel 0 (some n) = min fuel n.toNat) := by
  refine ⟨fun fuel i => sessionsRun_zero_cap fuel i,
    fun fuel i => sessionsRun_none fuel i, ?_⟩
  intro n hn fuel
  rw [sessionsRun_pos_cap n hn fuel 0]
  simp

/-- Claim C10 witness: with cap 2 and fuel 5 exactly 2 sessions run. -/
theorem c10_witness :
    (0 : Int) < 2 ∧ sessionsRun 5 0 (some 2) = min 5 (2 : Int).toNat :=
  ⟨by decide, c10_iteration_cap.2.2 2 (by decide) 5⟩
